import Mathlib

/-!
Verification of the Xiaomi Yi camera controller (src/src/App.tsx).

The React component `XiaomiYiCameraApp` is embedded as a pure state-transition
system. The component's `useState` hooks become fields of `AppState`; each
handler (`connectToCamera`, `startLiveView`, `stopLiveView`, `startRecording`,
`stopRecording`, `scanForCameras`, `disconnect`, the settings `onChange`
callbacks) becomes a function on `AppState`. Network nondeterminism is an
oracle `net : Nat → NetEvent` together with a counter `k` of the next fetch:
each `fetch(...)` call consumes one oracle event, so the number of network
calls an operation makes is visible as the change in the counter.

JavaScript specifics kept faithfully:
- `fetch(...).catch(() => ({ ok: true }))` maps a rejected fetch (network
  error / timeout) to a response with `ok = true`;
- `x || d` falls back to `d` on any falsy `x`, so both an absent field and
  an empty string / zero value select the default (`jsOrStr` / `jsOrNat`);
- `scanForCameras` reads `isConnected` from the closure created at render
  time, so the `if (!isConnected)` check after the loop sees the value from
  before the scan started, not the value updated by `connectToCamera`.
-/

/-- Camera operational status: the `status` field of the TS `CameraInfo`. -/
inductive CamStatus where
  | connected
  | disconnected
  | recording
deriving DecidableEq

/-- The TS `CameraInfo` record stored by `setCameraInfo`. -/
structure CameraInfo where
  ip : String
  model : String
  firmware : String
  battery : Nat
  status : CamStatus
deriving DecidableEq

/-- The TS `CameraSettings` record: resolution / quality / mode strings. -/
structure CameraSettings where
  resolution : String
  quality : String
  mode : String
deriving DecidableEq

/-- The DOM video element held by `videoRef` (its `src` and playing flag). -/
structure VideoEl where
  src : String
  playing : Bool
deriving DecidableEq

/-- The whole component state: one field per `useState` hook, plus the
`videoRef.current` element (`none` when no video element is mounted). -/
structure AppState where
  isConnected : Bool
  isScanning : Bool
  isRecording : Bool
  cameraInfo : Option CameraInfo
  cameraIP : String
  streamUrl : String
  error : String
  settings : CameraSettings
  video : Option VideoEl
deriving DecidableEq

/-- The JSON body of a `GET /camera-info` response: every field optional. -/
structure InfoBody where
  model : Option String
  firmware : Option String
  battery : Option Nat
deriving DecidableEq

/-- Outcome of one `fetch` call: the promise rejects (network failure or
timeout), or resolves with a status flag `ok` and a parsed body. Command
routes ignore the body. -/
inductive NetEvent where
  | reject
  | resp (ok : Bool) (body : InfoBody)
deriving DecidableEq

/-- JavaScript `v || d` for an optional string field: absent or empty
(falsy) selects the default. -/
def jsOrStr : Option String → String → String
  | some s, d => if s = "" then d else s
  | none, d => d

/-- JavaScript `v || d` for an optional numeric field: absent or zero
(falsy) selects the default. -/
def jsOrNat : Option Nat → Nat → Nat
  | some n, d => if n = 0 then d else n
  | none, d => d

/-- Initial settings from the `useState` initializer. -/
def initialSettings : CameraSettings :=
  { resolution := "1920x1080", quality := "high", mode := "video" }

/-- Initial component state: all `useState` initializers. -/
def initialState : AppState :=
  { isConnected := false
    isScanning := false
    isRecording := false
    cameraInfo := none
    cameraIP := "192.168.42.1"
    streamUrl := ""
    error := ""
    settings := initialSettings
    video := none }

/-- `connectToCamera(ip)`: clear the error, `fetch` `/camera-info`; a
rejection is caught and sets the failure message; a 200 response stores
`CameraInfo` with `||` fallbacks, sets `isConnected` and the stream URL and
returns `true`; a non-OK response returns `false`. -/
def connectToCamera (net : Nat → NetEvent) (ip : String) (s : AppState) (k : Nat) :
    AppState × Bool × Nat :=
  let s1 := { s with error := "" }
  match net k with
  | .reject =>
      ({ s1 with error :=
          "Failed to connect to camera. Please check IP address and network connection." },
        false, k + 1)
  | .resp ok body =>
      if ok then
        ({ s1 with
            cameraInfo := some
              { ip := ip
                model := jsOrStr body.model "Xiaomi Yi Camera"
                firmware := jsOrStr body.firmware "1.4.13"
                battery := jsOrNat body.battery 85
                status := .connected }
            isConnected := true
            streamUrl := "http://" ++ ip ++ ":8080/live" },
          true, k + 1)
      else (s1, false, k + 1)

/-- `startLiveView()`: returns early without `cameraInfo`; `fetch`
`/start-preview` with `.catch(() => ({ ok: true }))`; on `ok` and a mounted
video element, set its source and `play()` — a rejected `play()` sets the
demo error message. `playOk` is the environment's choice for `play()`. -/
def startLiveView (net : Nat → NetEvent) (playOk : Bool) (s : AppState) (k : Nat) :
    AppState × Nat :=
  match s.cameraInfo with
  | none => (s, k)
  | some info =>
      let ok := match net k with
        | .reject => true
        | .resp ok _ => ok
      if ok then
        match s.video with
        | none => (s, k + 1)
        | some v =>
            let v1 := { v with src := "http://" ++ info.ip ++ ":8080/live" }
            if playOk then
              ({ s with video := some { v1 with playing := true } }, k + 1)
            else
              ({ s with
                  video := some v1
                  error := "Live stream not available in demo mode" }, k + 1)
      else (s, k + 1)

/-- `stopLiveView()`: if a video element is mounted, pause it and clear its
source. No `fetch` at all. -/
def stopLiveView (s : AppState) : AppState :=
  match s.video with
  | none => s
  | some v => { s with video := some { v with playing := false, src := "" } }

/-- `startRecording()`: returns early without `cameraInfo`; `fetch`
`/start-record` with `.catch(() => ({ ok: true }))` — a rejection is
treated as success; on `ok` set `isRecording` and mark the stored info
`recording`; on a non-OK response do nothing. -/
def startRecording (net : Nat → NetEvent) (s : AppState) (k : Nat) : AppState × Nat :=
  match s.cameraInfo with
  | none => (s, k)
  | some info =>
      let ok := match net k with
        | .reject => true
        | .resp ok _ => ok
      if ok then
        ({ s with
            isRecording := true
            cameraInfo := some { info with status := .recording } }, k + 1)
      else (s, k + 1)

/-- `stopRecording()`: returns early without `cameraInfo`; `fetch`
`/stop-record` with `.catch(() => ({ ok: true }))` — a rejection is treated
as success; on `ok` clear `isRecording` and mark the stored info
`connected`; on a non-OK response do nothing. -/
def stopRecording (net : Nat → NetEvent) (s : AppState) (k : Nat) : AppState × Nat :=
  match s.cameraInfo with
  | none => (s, k)
  | some info =>
      let ok := match net k with
        | .reject => true
        | .resp ok _ => ok
      if ok then
        ({ s with
            isRecording := false
            cameraInfo := some { info with status := .connected } }, k + 1)
      else (s, k + 1)

/-- The hard-coded candidate list of `scanForCameras`. -/
def commonIPs : List String := ["192.168.42.1", "192.168.1.100", "192.168.0.100"]

/-- The `for (const ip of commonIPs)` loop body of `scanForCameras`: try
`connectToCamera(ip)`; on success record the address (`setCameraIP`) and
`break`; otherwise continue with the next candidate. -/
def scanLoop (net : Nat → NetEvent) : List String → AppState → Nat → AppState × Nat
  | [], s, k => (s, k)
  | ip :: rest, s, k =>
      let r := connectToCamera net ip s k
      if r.2.1 then ({ r.1 with cameraIP := ip }, r.2.2)
      else scanLoop net rest r.1 r.2.2

/-- `scanForCameras()`: set `isScanning`, clear the error, run the loop over
`commonIPs`, then `if (!isConnected)` set the not-found error — where
`isConnected` is the value captured by the closure when the handler was
created, i.e. the state before the scan, not the value the loop updated —
and finally clear `isScanning`. -/
def scanForCameras (net : Nat → NetEvent) (s : AppState) (k : Nat) : AppState × Nat :=
  let captured := s.isConnected
  let s1 := { s with isScanning := true, error := "" }
  let r := scanLoop net commonIPs s1 k
  let s2 := if !captured then
      { r.1 with error := "No Xiaomi Yi cameras found on network" }
    else r.1
  ({ s2 with isScanning := false }, r.2)

/-- `disconnect()`: clear `isConnected`, `cameraInfo` and `isRecording`,
then `stopLiveView()`. Purely local. -/
def disconnect (s : AppState) : AppState :=
  stopLiveView
    { s with isConnected := false, cameraInfo := none, isRecording := false }

/-- The resolution `<select>`'s `onChange`: store the value, nothing else. -/
def setResolution (v : String) (s : AppState) : AppState :=
  { s with settings := { s.settings with resolution := v } }

/-- The quality `<select>`'s `onChange`: store the value, nothing else. -/
def setQuality (v : String) (s : AppState) : AppState :=
  { s with settings := { s.settings with quality := v } }

/-- The mode `<select>`'s `onChange`: store the value, nothing else. -/
def setMode (v : String) (s : AppState) : AppState :=
  { s with settings := { s.settings with mode := v } }

/-- The intents the presentation layer can issue, one per handler.
`startPreview` carries the environment's outcome for `play()`. -/
inductive Intent where
  | connect (ip : String)
  | scanAndConnect
  | startPreview (playOk : Bool)
  | stopPreview
  | startRecording
  | stopRecording
  | disconnect
  | setResolution (v : String)
  | setQuality (v : String)
  | setMode (v : String)
deriving DecidableEq

/-- Dispatch one intent to its handler, threading the fetch counter. -/
def dispatch (net : Nat → NetEvent) : Intent → AppState × Nat → AppState × Nat
  | .connect ip, (s, k) =>
      let r := connectToCamera net ip s k
      (r.1, r.2.2)
  | .scanAndConnect, (s, k) => scanForCameras net s k
  | .startPreview p, (s, k) => startLiveView net p s k
  | .stopPreview, (s, k) => (stopLiveView s, k)
  | .startRecording, (s, k) => startRecording net s k
  | .stopRecording, (s, k) => stopRecording net s k
  | .disconnect, (s, k) => (disconnect s, k)
  | .setResolution v, (s, k) => (setResolution v s, k)
  | .setQuality v, (s, k) => (setQuality v s, k)
  | .setMode v, (s, k) => (setMode v s, k)

/-- Run a finite sequence of intents. -/
def runIntents (net : Nat → NetEvent) : List Intent → AppState × Nat → AppState × Nat
  | [], sk => sk
  | i :: rest, sk => runIntents net rest (dispatch net i sk)

/-- Inductive invariant: a stored `CameraInfo` implies `isConnected`, and
`isRecording` implies `isConnected`. -/
def goodState (s : AppState) : Bool :=
  (!s.cameraInfo.isSome || s.isConnected) && (!s.isRecording || s.isConnected)

/-- The preview is stopped: no mounted video element is playing and any
mounted element's source is cleared. -/
def previewStopped (s : AppState) : Bool :=
  match s.video with
  | none => true
  | some v => !v.playing && v.src == ""

/-- A connected, recording session (as produced by a successful connect
followed by a successful record-start). -/
def recState : AppState :=
  { initialState with
      isConnected := true
      isRecording := true
      cameraInfo := some
        { ip := "192.168.42.1", model := "Yi4K", firmware := "1.4.13"
          battery := 70, status := CamStatus.recording }
      streamUrl := "http://192.168.42.1:8080/live" }

/-- A connected, not-recording session. -/
def connState : AppState :=
  { initialState with
      isConnected := true
      cameraInfo := some
        { ip := "192.168.42.1", model := "Yi4K", firmware := "1.4.13"
          battery := 70, status := CamStatus.connected }
      streamUrl := "http://192.168.42.1:8080/live" }

theorem goodState_eq_true (s : AppState) :
    goodState s = true ↔
      (s.cameraInfo.isSome = true → s.isConnected = true) ∧
      (s.isRecording = true → s.isConnected = true) := by
  cases hci : s.cameraInfo <;> cases hr : s.isRecording <;> cases hc : s.isConnected <;>
    simp [goodState, hci, hr, hc]

theorem goodState_of_fields (s t : AppState)
    (h1 : t.isConnected = s.isConnected)
    (h2 : t.isRecording = s.isRecording)
    (h3 : t.cameraInfo = s.cameraInfo)
    (h : goodState s = true) : goodState t = true := by
  unfold goodState at h ⊢
  rw [h1, h2, h3]
  exact h

theorem goodState_connectToCamera (net : Nat → NetEvent) (ip : String) (s : AppState)
    (k : Nat) (h : goodState s = true) :
    goodState (connectToCamera net ip s k).1 = true := by
  unfold connectToCamera
  cases hnet : net k with
  | reject =>
      exact goodState_of_fields s _ rfl rfl rfl h
  | resp ok body =>
      cases ok with
      | false => exact goodState_of_fields s _ rfl rfl rfl h
      | true => simp [goodState]

theorem goodState_scanLoop (net : Nat → NetEvent) (l : List String) (s : AppState)
    (k : Nat) (h : goodState s = true) :
    goodState (scanLoop net l s k).1 = true := by
  induction l generalizing s k with
  | nil => simpa [scanLoop] using h
  | cons ip rest ih =>
      unfold scanLoop
      by_cases hc : (connectToCamera net ip s k).2.1 = true
      · have hg := goodState_connectToCamera net ip s k h
        simp only [hc, if_true]
        exact goodState_of_fields _ _ rfl rfl rfl hg
      · simp only [Bool.not_eq_true] at hc
        simp only [hc, Bool.false_eq_true, if_false]
        exact ih _ _ (goodState_connectToCamera net ip s k h)

theorem goodState_scanForCameras (net : Nat → NetEvent) (s : AppState) (k : Nat)
    (h : goodState s = true) :
    goodState (scanForCameras net s k).1 = true := by
  have h1 : goodState { s with isScanning := true, error := "" } = true :=
    goodState_of_fields s _ rfl rfl rfl h
  have h2 := goodState_scanLoop net commonIPs { s with isScanning := true, error := "" } k h1
  simp only [scanForCameras]
  refine goodState_of_fields _ _ ?_ ?_ ?_ h2 <;> (split <;> rfl)

theorem goodState_startLiveView (net : Nat → NetEvent) (p : Bool) (s : AppState)
    (k : Nat) (h : goodState s = true) :
    goodState (startLiveView net p s k).1 = true := by
  unfold startLiveView
  cases hinfo : s.cameraInfo with
  | none => exact h
  | some info =>
      cases hnet : net k with
      | reject =>
          cases hvid : s.video with
          | none => exact h
          | some v =>
              cases p <;> exact goodState_of_fields s _ rfl rfl hinfo.symm h
      | resp ok body =>
          cases ok with
          | false => exact h
          | true =>
              cases hvid : s.video with
              | none => exact h
              | some v =>
                  cases p <;> exact goodState_of_fields s _ rfl rfl hinfo.symm h

theorem goodState_stopLiveView (s : AppState) (h : goodState s = true) :
    goodState (stopLiveView s) = true := by
  unfold stopLiveView
  cases hvid : s.video with
  | none => exact h
  | some v => exact goodState_of_fields s _ rfl rfl rfl h

theorem goodState_startRecording (net : Nat → NetEvent) (s : AppState) (k : Nat)
    (h : goodState s = true) : goodState (startRecording net s k).1 = true := by
  unfold startRecording
  cases hinfo : s.cameraInfo with
  | none => exact h
  | some info =>
      have hconn : s.isConnected = true :=
        ((goodState_eq_true s).1 h).1 (by rw [hinfo]; rfl)
      cases hnet : net k with
      | reject => simp [goodState, hconn]
      | resp ok body =>
          cases ok with
          | true => simp [goodState, hconn]
          | false => exact h

theorem goodState_stopRecording (net : Nat → NetEvent) (s : AppState) (k : Nat)
    (h : goodState s = true) : goodState (stopRecording net s k).1 = true := by
  unfold stopRecording
  cases hinfo : s.cameraInfo with
  | none => exact h
  | some info =>
      have hconn : s.isConnected = true :=
        ((goodState_eq_true s).1 h).1 (by rw [hinfo]; rfl)
      cases hnet : net k with
      | reject => simp [goodState, hconn]
      | resp ok body =>
          cases ok with
          | true => simp [goodState, hconn]
          | false => exact h

theorem goodState_disconnect (s : AppState) : goodState (disconnect s) = true := by
  unfold disconnect stopLiveView
  cases hvid : s.video <;> simp [goodState]

theorem goodState_dispatch (net : Nat → NetEvent) (i : Intent) (s : AppState)
    (k : Nat) (h : goodState s = true) :
    goodState (dispatch net i (s, k)).1 = true := by
  cases i with
  | connect ip => exact goodState_connectToCamera net ip s k h
  | scanAndConnect => exact goodState_scanForCameras net s k h
  | startPreview p => exact goodState_startLiveView net p s k h
  | stopPreview => exact goodState_stopLiveView s h
  | startRecording => exact goodState_startRecording net s k h
  | stopRecording => exact goodState_stopRecording net s k h
  | disconnect => exact goodState_disconnect s
  | setResolution v => exact goodState_of_fields s _ rfl rfl rfl h
  | setQuality v => exact goodState_of_fields s _ rfl rfl rfl h
  | setMode v => exact goodState_of_fields s _ rfl rfl rfl h

theorem goodState_runIntents (net : Nat → NetEvent) (l : List Intent)
    (sk : AppState × Nat) (h : goodState sk.1 = true) :
    goodState (runIntents net l sk).1 = true := by
  induction l generalizing sk with
  | nil => simpa [runIntents] using h
  | cons i rest ih =>
      unfold runIntents
      exact ih _ (goodState_dispatch net i sk.1 sk.2 h)

/-- Claim C1, counterexample: a `stopRecording` issued while recording whose
fetch rejects (timeout / network rejection) does NOT leave the session
recording with an uncertain marker — the rejection is swallowed by
`.catch(() => ({ ok: true }))` and the session is optimistically moved to
`recording = false` with camera status `connected`. -/
theorem stopRecording_timeout_leaves_connected_not_uncertain :
    (stopRecording (fun _ => NetEvent.reject) recState 0).1.isRecording = false ∧
    ((stopRecording (fun _ => NetEvent.reject) recState 0).1.cameraInfo.map CameraInfo.status)
      = some CamStatus.connected ∧
    recState.isRecording = true :=
  ⟨rfl, rfl, rfl⟩

/-- Claim C1, amended: for a `stopRecording` call while camera info is
present, a rejected fetch (timeout or network rejection) is treated as a
success — the session moves to `recording = false` with camera status
`connected` — while an explicit non-OK device response leaves the whole
state unchanged (still recording; no uncertain marker exists anywhere). -/
theorem stopRecording_failure_behavior (net : Nat → NetEvent) (s : AppState)
    (k : Nat) (info : CameraInfo) (h : s.cameraInfo = some info) :
    (net k = NetEvent.reject →
      stopRecording net s k =
        ({ s with
            isRecording := false
            cameraInfo := some { info with status := CamStatus.connected } }, k + 1)) ∧
    (∀ body, net k = NetEvent.resp false body → stopRecording net s k = (s, k + 1)) := by
  constructor
  · intro hr
    simp [stopRecording, h, hr]
  · intro body hr
    simp [stopRecording, h, hr]

/-- Claim C1, witness: the amended statement instantiated on a concrete
recording session with a rejecting network. -/
theorem stopRecording_failure_behavior_witness :
    stopRecording (fun _ => NetEvent.reject) recState 0 =
      ({ recState with
          isRecording := false
          cameraInfo := some
            { ip := "192.168.42.1", model := "Yi4K", firmware := "1.4.13"
              battery := 70, status := CamStatus.connected } }, 1) :=
  (stopRecording_failure_behavior (fun _ => NetEvent.reject) recState 0
    { ip := "192.168.42.1", model := "Yi4K", firmware := "1.4.13"
      battery := 70, status := CamStatus.recording } rfl).1 rfl

/-- Claim C2, counterexample: a `startRecording` issued while Connected
whose fetch rejects (timeout / network rejection) sets `recording = true` —
the ambiguous outcome is swallowed by `.catch(() => ({ ok: true }))`. -/
theorem startRecording_timeout_sets_recording :
    (startRecording (fun _ => NetEvent.reject) connState 0).1.isRecording = true ∧
    connState.isConnected = true ∧
    connState.isRecording = false :=
  ⟨rfl, rfl, rfl⟩

/-- Claim C2, amended: for a `startRecording` call while camera info is
present, a rejected fetch (timeout or network rejection) is treated as a
success — `recording` is set to `true` with camera status `recording` —
while an explicit non-OK device response leaves the whole state unchanged
(still `recording = false`, and no RecordingFailed error is surfaced). -/
theorem startRecording_failure_behavior (net : Nat → NetEvent) (s : AppState)
    (k : Nat) (info : CameraInfo) (h : s.cameraInfo = some info) :
    (net k = NetEvent.reject →
      startRecording net s k =
        ({ s with
            isRecording := true
            cameraInfo := some { info with status := CamStatus.recording } }, k + 1)) ∧
    (∀ body, net k = NetEvent.resp false body → startRecording net s k = (s, k + 1)) := by
  constructor
  · intro hr
    simp [startRecording, h, hr]
  · intro body hr
    simp [startRecording, h, hr]

/-- Claim C2, witness: the amended statement instantiated on a concrete
connected session with a rejecting network. -/
theorem startRecording_failure_behavior_witness :
    startRecording (fun _ => NetEvent.reject) connState 0 =
      ({ connState with
          isRecording := true
          cameraInfo := some
            { ip := "192.168.42.1", model := "Yi4K", firmware := "1.4.13"
              battery := 70, status := CamStatus.recording } }, 1) :=
  (startRecording_failure_behavior (fun _ => NetEvent.reject) connState 0
    { ip := "192.168.42.1", model := "Yi4K", firmware := "1.4.13"
      battery := 70, status := CamStatus.connected } rfl).1 rfl

/-- Claim C3 (code bug): scanning from the Disconnected state with the very
first candidate answering 200 does connect (state connected, the first
candidate's address recorded, exactly one fetch made), yet the scan still
reports "No Xiaomi Yi cameras found on network": the `if (!isConnected)`
check after the loop reads the stale `isConnected` captured by the closure
before the scan, so a successful scan also reports not-found. -/
theorem scan_success_still_reports_not_found :
    (scanForCameras (fun _ => NetEvent.resp true ⟨none, none, none⟩) initialState 0).1.isConnected
      = true ∧
    (scanForCameras (fun _ => NetEvent.resp true ⟨none, none, none⟩) initialState 0).1.cameraIP
      = "192.168.42.1" ∧
    (scanForCameras (fun _ => NetEvent.resp true ⟨none, none, none⟩) initialState 0).2 = 1 ∧
    (scanForCameras (fun _ => NetEvent.resp true ⟨none, none, none⟩) initialState 0).1.error
      = "No Xiaomi Yi cameras found on network" :=
  ⟨rfl, rfl, rfl, rfl⟩

/-- Claim C4 (confirmed): after any finite sequence of intents from the
initial Disconnected state, under any network behaviour, `recording = true`
implies the session is connected (not Disconnected). -/
theorem recording_implies_connected (net : Nat → NetEvent) (l : List Intent)
    (h : (runIntents net l (initialState, 0)).1.isRecording = true) :
    (runIntents net l (initialState, 0)).1.isConnected = true := by
  have hg := goodState_runIntents net l (initialState, 0) (by rfl)
  exact ((goodState_eq_true _).1 hg).2 h

/-- Claim C4, witness: a concrete run (successful connect then successful
record-start) in which the session is in fact recording and connected. -/
theorem recording_implies_connected_witness :
    (runIntents (fun _ => NetEvent.resp true ⟨none, none, none⟩)
        [Intent.connect "192.168.42.1", Intent.startRecording]
        (initialState, 0)).1.isRecording = true ∧
    (runIntents (fun _ => NetEvent.resp true ⟨none, none, none⟩)
        [Intent.connect "192.168.42.1", Intent.startRecording]
        (initialState, 0)).1.isConnected = true :=
  ⟨rfl, recording_implies_connected _ _ rfl⟩

/-- Claim C5, counterexample: a settings update whose resolution is outside
the enumerated domain ("9999x9999") is stored as-is — the settings change,
and no InvalidSetting (indeed no error at all) is produced. -/
theorem updateSettings_accepts_unknown_resolution :
    (setResolution "9999x9999" initialState).settings.resolution = "9999x9999" ∧
    (setResolution "9999x9999" initialState).settings ≠ initialState.settings ∧
    (setResolution "9999x9999" initialState).error = "" :=
  ⟨rfl, by decide, rfl⟩

/-- Claim C5, amended: the settings update handlers perform no validation
whatsoever: each stores the given string into its field unconditionally,
changes nothing else (in particular no error is set), and makes no network
call (the fetch counter is unchanged). -/
theorem updateSettings_no_validation (net : Nat → NetEvent) (v : String) (s : AppState)
    (k : Nat) :
    dispatch net (Intent.setResolution v) (s, k) =
      ({ s with settings := { s.settings with resolution := v } }, k) ∧
    dispatch net (Intent.setQuality v) (s, k) =
      ({ s with settings := { s.settings with quality := v } }, k) ∧
    dispatch net (Intent.setMode v) (s, k) =
      ({ s with settings := { s.settings with mode := v } }, k) :=
  ⟨rfl, rfl, rfl⟩

/-- Claim C6, counterexample: `startRecording` from the initial Disconnected
state is silently ignored — the whole state (error field included, which
stays empty) is unchanged and no fetch is made; no IllegalTransition error
is surfaced. -/
theorem startRecording_disconnected_silently_ignored :
    dispatch (fun _ => NetEvent.reject) Intent.startRecording (initialState, 0)
      = (initialState, 0) ∧
    initialState.error = "" :=
  ⟨rfl, rfl⟩

/-- Claim C6, amended: `startRecording` invoked while no camera info is
stored (Disconnected) returns immediately: no network call, no error
surfaced, and the entire session state is left unchanged. -/
theorem startRecording_disconnected_noop (net : Nat → NetEvent) (s : AppState) (k : Nat)
    (h : s.cameraInfo = none) :
    dispatch net Intent.startRecording (s, k) = (s, k) := by
  simp [dispatch, startRecording, h]

/-- Claim C6, witness: the amended statement instantiated at the initial
state. -/
theorem startRecording_disconnected_noop_witness :
    dispatch (fun _ => NetEvent.resp false ⟨none, none, none⟩) Intent.startRecording
      (initialState, 0) = (initialState, 0) :=
  startRecording_disconnected_noop _ initialState 0 rfl

/-- Claim C7, counterexample: on a 200 response with an empty body the
stored fallbacks are model "Xiaomi Yi Camera", firmware "1.4.13" and
battery 85 — not the claimed model "Unknown Camera", firmware "unknown"
and battery 0. -/
theorem connect_defaults_differ_from_spec :
    ((connectToCamera (fun _ => NetEvent.resp true ⟨none, none, none⟩) "192.168.42.1"
        initialState 0).1.cameraInfo.map (fun i => (i.model, i.firmware, i.battery)))
      = some ("Xiaomi Yi Camera", "1.4.13", 85) ∧
    ¬ ((connectToCamera (fun _ => NetEvent.resp true ⟨none, none, none⟩) "192.168.42.1"
        initialState 0).1.cameraInfo.map (fun i => (i.model, i.firmware, i.battery)))
      = some ("Unknown Camera", "unknown", 0) := by
  constructor
  · rfl
  · decide

/-- Claim C7, amended: every 200 `fetchInfo` response connects successfully
whatever its body, and each missing field falls back to its default —
model "Xiaomi Yi Camera", firmware "1.4.13", battery 85; a
partially-populated device response never causes the connection to fail. -/
theorem connect_partial_body_defaults (net : Nat → NetEvent) (ip : String) (s : AppState)
    (k : Nat) (body : InfoBody) (h : net k = NetEvent.resp true body) :
    (connectToCamera net ip s k).2.1 = true ∧
    (connectToCamera net ip s k).1.isConnected = true ∧
    (body.model = none →
      (connectToCamera net ip s k).1.cameraInfo.map CameraInfo.model
        = some "Xiaomi Yi Camera") ∧
    (body.firmware = none →
      (connectToCamera net ip s k).1.cameraInfo.map CameraInfo.firmware = some "1.4.13") ∧
    (body.battery = none →
      (connectToCamera net ip s k).1.cameraInfo.map CameraInfo.battery = some 85) := by
  refine ⟨by simp [connectToCamera, h], by simp [connectToCamera, h], ?_, ?_, ?_⟩
  · intro hm
    simp [connectToCamera, h, jsOrStr, hm]
  · intro hf
    simp [connectToCamera, h, jsOrStr, hf]
  · intro hb
    simp [connectToCamera, h, jsOrNat, hb]

/-- Claim C7, witness: the amended statement instantiated on an empty
response body. -/
theorem connect_partial_body_defaults_witness :
    (connectToCamera (fun _ => NetEvent.resp true ⟨none, none, none⟩) "192.168.42.1"
        initialState 0).2.1 = true ∧
    (connectToCamera (fun _ => NetEvent.resp true ⟨none, none, none⟩) "192.168.42.1"
        initialState 0).1.isConnected = true ∧
    (connectToCamera (fun _ => NetEvent.resp true ⟨none, none, none⟩) "192.168.42.1"
        initialState 0).1.cameraInfo.map CameraInfo.model = some "Xiaomi Yi Camera" ∧
    (connectToCamera (fun _ => NetEvent.resp true ⟨none, none, none⟩) "192.168.42.1"
        initialState 0).1.cameraInfo.map CameraInfo.firmware = some "1.4.13" ∧
    (connectToCamera (fun _ => NetEvent.resp true ⟨none, none, none⟩) "192.168.42.1"
        initialState 0).1.cameraInfo.map CameraInfo.battery = some 85 := by
  have h := connect_partial_body_defaults (fun _ => NetEvent.resp true ⟨none, none, none⟩)
    "192.168.42.1" initialState 0 ⟨none, none, none⟩ rfl
  exact ⟨h.1, h.2.1, h.2.2.1 rfl, h.2.2.2.1 rfl, h.2.2.2.2 rfl⟩

/-- Claim C8 (confirmed): `disconnect` from any state and any network
behaviour yields `isConnected = false`, `cameraInfo = none`,
`isRecording = false`, a stopped preview, and makes no network call. -/
theorem disconnect_unconditional_reset (net : Nat → NetEvent) (s : AppState) (k : Nat) :
    (dispatch net Intent.disconnect (s, k)).1.isConnected = false ∧
    (dispatch net Intent.disconnect (s, k)).1.cameraInfo = none ∧
    (dispatch net Intent.disconnect (s, k)).1.isRecording = false ∧
    previewStopped (dispatch net Intent.disconnect (s, k)).1 = true ∧
    (dispatch net Intent.disconnect (s, k)).2 = k := by
  refine ⟨?_, ?_, ?_, ?_, rfl⟩ <;>
    · simp only [dispatch, disconnect, stopLiveView]
      cases hv : s.video <;> simp [previewStopped, hv]

/-- Claim C9 (confirmed): `stopPreview` makes no network call (the fetch
counter is unchanged) and is idempotent: applying it twice equals applying
it once, from any state. -/
theorem stopPreview_local_idempotent (net : Nat → NetEvent) (s : AppState) (k : Nat) :
    dispatch net Intent.stopPreview (dispatch net Intent.stopPreview (s, k)) =
      dispatch net Intent.stopPreview (s, k) ∧
    (dispatch net Intent.stopPreview (s, k)).2 = k := by
  refine ⟨?_, rfl⟩
  simp only [dispatch, stopLiveView]
  cases hv : s.video <;> simp [hv]

/-- Claim C10 (confirmed): a 200 `/camera-info` response whose body reports
`battery = 0` stores `battery = 85`: the `||` fallback cannot distinguish a
reported zero from an absent field, and the connect succeeds. -/
theorem battery_zero_reported_stored_as_85 (net : Nat → NetEvent) (ip : String)
    (s : AppState) (k : Nat) (body : InfoBody) (h1 : net k = NetEvent.resp true body)
    (h2 : body.battery = some 0) :
    (connectToCamera net ip s k).1.cameraInfo.map CameraInfo.battery = some 85 ∧
    (connectToCamera net ip s k).2.1 = true := by
  constructor <;> simp [connectToCamera, h1, jsOrNat, h2]

/-- Claim C10, witness: the statement instantiated on a body that
explicitly reports zero battery. -/
theorem battery_zero_reported_stored_as_85_witness :
    (connectToCamera (fun _ => NetEvent.resp true ⟨none, none, some 0⟩) "192.168.42.1"
        initialState 0).1.cameraInfo.map CameraInfo.battery = some 85 ∧
    (connectToCamera (fun _ => NetEvent.resp true ⟨none, none, some 0⟩) "192.168.42.1"
        initialState 0).2.1 = true :=
  battery_zero_reported_stored_as_85 _ _ _ _ ⟨none, none, some 0⟩ rfl rfl
